import Mathlib

/-!
Shallow embedding of the budget-ledger and request-validation logic of
`src/app_v11.py` (a Streamlit procurement / maintenance-budget tracker).
Monetary values are modelled as rationals, the relational tables as lists
of records, and each form handler as a pure function from the relevant
table contents and form inputs to either an updated table or a typed
rejection mirroring the handler's error branches.
-/

namespace ProcApp

/-- Row of the `budget_heads` table (`cost_area` is the business key). -/
structure BudgetHead where
  id : Nat
  department : String
  cost_area : String
  total_budget : ℚ
deriving DecidableEq

/-- Row of the `requests` table, with the columns written by
`mn_submission_form` / `admin_edit_mn_form` in `app_v11.py`. -/
structure Request where
  id : Nat
  mn_number : String
  mn_issue_date : String
  date_logged : String
  requester : String
  cost_area : String
  estimated_cost : ℚ
  status : String
  mn_particulars : String
  mn_category : String
  department : String
  location : String
  supplier_vendor : String
  supplier_type : String
  currency : String
  foreign_spare_cost : ℚ
  freight_fca_charges : ℚ
  customs_duty_rate : ℚ
  local_cost_wo_vat_ait : ℚ
  vat_ait : ℚ
  landed_total_cost : ℚ
  date_sent_ho : String
  plant_remarks : String
deriving DecidableEq

/-- The values `get_config_rates` reads from the `exchange_config` table:
per-currency BDT rates plus the customs-duty percentage. -/
structure Config where
  usd_rate : ℚ
  eur_rate : ℚ
  gbp_rate : ℚ
  inr_rate : ℚ
  other_rate : ℚ
  customs_duty_pct : ℚ
deriving DecidableEq

/-- `fx_rates.get(currency, 1.0)`: the dictionary built by
`get_config_rates` (BDT fixed at 1), with the `.get` default of 1.0 for
any key outside the configured set. -/
def fxRate (cfg : Config) (currency : String) : ℚ :=
  if currency = "BDT" then 1
  else if currency = "USD" then cfg.usd_rate
  else if currency = "EUR" then cfg.eur_rate
  else if currency = "GBP" then cfg.gbp_rate
  else if currency = "INR" then cfg.inr_rate
  else if currency = "Other" then cfg.other_rate
  else 1

/-- `landed_total_cost` as computed on the create path
(`app_v11.py` lines 1132-1135). -/
def landed_total_cost_create (foreign_spare_cost freight_fca_charges
    local_cost_wo_vat_ait vat_ait customs_duty_pct exchange_rate : ℚ) : ℚ :=
  ((foreign_spare_cost * (1 + customs_duty_pct)) + freight_fca_charges)
    * exchange_rate + local_cost_wo_vat_ait + vat_ait

/-- `landed_total_cost_new` as computed on the admin edit path
(`app_v11.py` lines 1917-1920). -/
def landed_total_cost_new (foreign_spare_cost freight_fca_charges
    local_cost_wo_vat_ait vat_ait customs_duty_pct exchange_rate : ℚ) : ℚ :=
  ((foreign_spare_cost * (1 + customs_duty_pct)) + freight_fca_charges)
    * exchange_rate + local_cost_wo_vat_ait + vat_ait

/-- The landed-cost formula exactly as the spec states it:
`landed = (foreign_spare_cost * (1 + customs_duty_pct) + freight_fca_charges)
 * fx_rate + local_cost_wo_vat_ait + vat_ait`.  Written from the spec's
words, for comparison with the two code-path definitions above. -/
def computeLandedCostSpec (foreign_spare_cost freight_fca_charges
    local_cost_wo_vat_ait vat_ait customs_duty_pct fx_rate : ℚ) : ℚ :=
  (foreign_spare_cost * (1 + customs_duty_pct) + freight_fca_charges)
    * fx_rate + local_cost_wo_vat_ait + vat_ait

/-- One output row of `calculate_status` (`app_v11.py` lines 299-334). -/
structure LedgerRow where
  cost_area : String
  department : String
  total_budget : ℚ
  utilized : ℚ
  remaining : ℚ
  utilizationPct : ℚ
deriving DecidableEq

/-- Add one request's landed cost into the per-area running sums,
updating the first matching entry (the association-list analogue of the
pandas `groupby('cost_area').sum()` accumulation). -/
def bumpSpent (area : String) (v : ℚ) :
    List (String × ℚ) → List (String × ℚ)
  | [] => [(area, v)]
  | (a, s) :: t =>
    if a = area then (a, s + v) :: t else (a, s) :: bumpSpent area v t

/-- `spent_by_area`: total landed cost grouped by `cost_area`
(`requests.groupby('cost_area')['landed_total_cost'].sum()`). -/
def spentByArea (requests : List Request) : List (String × ℚ) :=
  requests.foldl (fun acc r => bumpSpent r.cost_area r.landed_total_cost acc) []

/-- Left-merge lookup with `fillna(0)`: the spent amount for an area, or 0
when no request references it. -/
def lookupSpent (tbl : List (String × ℚ)) (area : String) : ℚ :=
  ((tbl.find? (fun p => p.1 = area)).map (fun p => p.2)).getD 0

/-- The merged ledger row built for one budget head: utilized cost from
the grouped sums, `Remaining Balance = total_budget - utilized`, and
`Utilization % = utilized / total_budget * 100` when `total_budget > 0`
else 0. -/
def ledgerRowFor (spent : List (String × ℚ)) (b : BudgetHead) : LedgerRow :=
  let u := lookupSpent spent b.cost_area
  { cost_area := b.cost_area
    department := b.department
    total_budget := b.total_budget
    utilized := u
    remaining := b.total_budget - u
    utilizationPct := if b.total_budget > 0 then u / b.total_budget * 100 else 0 }

/-- `calculate_status` (`app_v11.py` lines 299-334): the per-area ledger
rows plus the grand totals `(total_budget, total_spent, remaining)`.
Returns the empty ledger and zero totals when there are no budget heads,
mirroring the early `budgets.empty` return. -/
def calculate_status (budgets : List BudgetHead) (requests : List Request) :
    List LedgerRow × ℚ × ℚ × ℚ :=
  if budgets.isEmpty then ([], 0, 0, 0)
  else
    let spent := spentByArea requests
    let rows := budgets.map (ledgerRowFor spent)
    let total_budget := (rows.map (fun r => r.total_budget)).sum
    let total_spent := (rows.map (fun r => r.utilized)).sum
    (rows, total_budget, total_spent, total_budget - total_spent)

/-- The ledger row `calculate_status` produces for a given area, if any:
`df_status[df_status['cost_area'] == area] ... .iloc[0]`. -/
def ledgerFind (budgets : List BudgetHead) (requests : List Request)
    (area : String) : Option LedgerRow :=
  (calculate_status budgets requests).1.find? (fun r => r.cost_area = area)

/-- The mandatory-field test of the submission forms:
`value is None or (isinstance(value, str) and not value.strip())`.
`none` models a `selectbox` with no selection; a string strips to the
empty string exactly when every character is whitespace. -/
def optBlank : Option String → Bool
  | none => true
  | some s => s.data.all Char.isWhitespace

/-- Inputs of the create form (`New Request (MN)` tab).  Text inputs and
the currency selectbox (default index 0) always carry a string; the
category / department / area / supplier-type selectboxes start with
`index=None` and so may be unselected.  The two date pickers always hold
a date, which the mandatory-field test never treats as blank. -/
structure CreateForm where
  mn_no : String
  mn_category : Option String
  department : Option String
  area : Option String
  location : String
  supplier_vendor : String
  supplier_type : Option String
  currency : String
  mn_particulars : String
  mn_issue_date : String
  date_sent_ho : String
  foreign_spare_cost : ℚ
  freight_fca_charges : ℚ
  local_cost_wo_vat_ait : ℚ
  vat_ait : ℚ
  requester : String
  plant_remarks : String
deriving DecidableEq

/-- `missing_fields` on the create path (`app_v11.py` lines 1176-1184):
labels of the blank mandatory fields, in the order the source lists
them.  `date_sent_ho` is a `date` object, never a blank string, so its
entry can never appear. -/
def createMissingFields (f : CreateForm) : List String :=
  (if optBlank (some f.mn_no) then ["MN Number"] else []) ++
  (if optBlank f.mn_category then ["MN Category"] else []) ++
  (if optBlank f.department then ["Department"] else []) ++
  (if optBlank f.area then ["Cost Area"] else []) ++
  (if optBlank (some f.location) then ["Location"] else []) ++
  (if optBlank (some f.supplier_vendor) then ["Supplier/Vendor"] else []) ++
  (if optBlank f.supplier_type then ["Supplier Type"] else []) ++
  (if optBlank (some f.currency) then ["Currency"] else []) ++
  (if optBlank (some f.mn_particulars) then ["MN Particulars"] else [])

/-- The landed cost the create form computes live from its cost fields
and the configured duty / fx rates. -/
def createLanded (cfg : Config) (f : CreateForm) : ℚ :=
  landed_total_cost_create f.foreign_spare_cost f.freight_fca_charges
    f.local_cost_wo_vat_ait f.vat_ait cfg.customs_duty_pct
    (fxRate cfg f.currency)

/-- `cost_invalid` on the create path (line 1185):
`any(c < 0 for c in required_costs) or landed_total_cost <= 0`. -/
def createCostInvalid (cfg : Config) (f : CreateForm) : Bool :=
  (decide (f.foreign_spare_cost < 0) || decide (f.freight_fca_charges < 0) ||
   decide (f.local_cost_wo_vat_ait < 0) || decide (f.vat_ait < 0)) ||
  decide (createLanded cfg f ≤ 0)

/-- The rejection branches of `mn_submission_form`, in source order.
`missingOrInvalid` carries the blank-field labels and the
`cost_invalid` flag, since the single error message reports both. -/
inductive CreateError where
  | missingOrInvalid (missing : List String) (costInvalid : Bool)
  | duplicateMn (mn : String)
  | unknownCostArea (area : String)
  | budgetExceeded (area : String) (remaining : ℚ)
deriving DecidableEq

/-- The check sequence of `mn_submission_form` (`app_v11.py` lines
1176-1218): combined mandatory-field / cost check, duplicate `mn_number`
check, empty-ledger-row check, then the strict budget check
`landed_total_cost > remaining`; `none` means every check passed. -/
def mn_submission_validate (budgets : List BudgetHead)
    (requests : List Request) (cfg : Config) (f : CreateForm) :
    Option CreateError :=
  let landed := createLanded cfg f
  let missing := createMissingFields f
  if missing ≠ [] ∨ createCostInvalid cfg f then
    some (.missingOrInvalid missing (createCostInvalid cfg f))
  else if requests.any (fun r => r.mn_number = f.mn_no) then
    some (.duplicateMn f.mn_no)
  else
    let area := f.area.getD ""
    match ledgerFind budgets requests area with
    | none => some (.unknownCostArea area)
    | some row =>
      if landed > row.remaining then some (.budgetExceeded area row.remaining)
      else none

/-- Outcome of pressing Submit on the create form.  On the all-checks-pass
path the source builds the INSERT parameter tuple (line 1234) from the
name `customs_duty_rate`, which is bound nowhere in `app_v11.py` (the
sibling variants and the edit path pass `customs_duty_pct` instead), so
execution raises `NameError` before `execute_query` runs and no row is
inserted. -/
inductive SubmitOutcome where
  | rejected (e : CreateError)
  | nameErrorCrash
deriving DecidableEq

/-- `mn_submission_form`'s full effect on the `requests` table: the
outcome together with the table contents afterwards.  Every path leaves
the table unchanged: rejections stop before the INSERT, and the
accepting path crashes on the unbound `customs_duty_rate` name. -/
def mn_submission_submit (budgets : List BudgetHead)
    (requests : List Request) (cfg : Config) (f : CreateForm) :
    SubmitOutcome × List Request :=
  match mn_submission_validate budgets requests cfg f with
  | some e => (.rejected e, requests)
  | none => (.nameErrorCrash, requests)

/-- The row the INSERT at lines 1224-1238 is written to add (status
`"Pending"`, `estimated_cost` and `landed_total_cost` both set to the
computed landed cost, duty rate snapshotted from config): what a
successful submission stores once the unbound-name slip is fixed as in
the sibling variants. -/
def intendedInsertedRequest (cfg : Config) (f : CreateForm) (newId : Nat)
    (today : String) : Request :=
  { id := newId
    mn_number := f.mn_no
    mn_issue_date := f.mn_issue_date
    date_logged := today
    requester := f.requester
    cost_area := f.area.getD ""
    estimated_cost := createLanded cfg f
    status := "Pending"
    mn_particulars := f.mn_particulars
    mn_category := f.mn_category.getD ""
    department := f.department.getD ""
    location := f.location
    supplier_vendor := f.supplier_vendor
    supplier_type := f.supplier_type.getD ""
    currency := f.currency
    foreign_spare_cost := f.foreign_spare_cost
    freight_fca_charges := f.freight_fca_charges
    customs_duty_rate := cfg.customs_duty_pct
    local_cost_wo_vat_ait := f.local_cost_wo_vat_ait
    vat_ait := f.vat_ait
    landed_total_cost := createLanded cfg f
    date_sent_ho := f.date_sent_ho
    plant_remarks := f.plant_remarks }

/-- Inputs of the admin MN edit form (`admin_edit_mn_form`).  All of its
selectboxes are pre-seeded with the record's current values, so every
field carries a string; text inputs may still be blanked. -/
structure EditForm where
  mn_no_new : String
  mn_category : String
  department : String
  area : String
  location : String
  supplier_vendor : String
  supplier_type : String
  currency : String
  mn_particulars : String
  mn_issue_date : String
  date_sent_ho : String
  foreign_spare_cost : ℚ
  freight_fca_charges : ℚ
  local_cost_wo_vat_ait : ℚ
  vat_ait : ℚ
  plant_remarks : String
deriving DecidableEq

/-- `missing_fields` on the edit path (lines 1946-1951); same labels and
order as the create path, and again the date entry can never fire. -/
def editMissingFields (f : EditForm) : List String :=
  (if optBlank (some f.mn_no_new) then ["MN Number"] else []) ++
  (if optBlank (some f.mn_category) then ["MN Category"] else []) ++
  (if optBlank (some f.department) then ["Department"] else []) ++
  (if optBlank (some f.area) then ["Cost Area"] else []) ++
  (if optBlank (some f.location) then ["Location"] else []) ++
  (if optBlank (some f.supplier_vendor) then ["Supplier/Vendor"] else []) ++
  (if optBlank (some f.supplier_type) then ["Supplier Type"] else []) ++
  (if optBlank (some f.currency) then ["Currency"] else []) ++
  (if optBlank (some f.mn_particulars) then ["MN Particulars"] else [])

/-- The recomputed landed cost of the edit form (lines 1917-1920). -/
def editLandedNew (cfg : Config) (f : EditForm) : ℚ :=
  landed_total_cost_new f.foreign_spare_cost f.freight_fca_charges
    f.local_cost_wo_vat_ait f.vat_ait cfg.customs_duty_pct
    (fxRate cfg f.currency)

/-- The rejection branches of `admin_edit_mn_form`, in source order. -/
inductive EditError where
  | notFound
  | missingOrInvalid (missing : List String) (costInvalid : Bool)
  | duplicateMn (mn : String)
  | unknownArea (area : String)
  | budgetExceededNewArea (area : String) (remaining : ℚ)
  | budgetExceededSameArea (area : String) (available : ℚ)
deriving DecidableEq

/-- The row update the edit form's UPDATE statement (lines 1997-2012)
performs: every listed column is overwritten (`estimated_cost` and
`landed_total_cost` with the recomputed cost, `customs_duty_rate` with
the current config), while `id`, `date_logged`, `requester` and `status`
are untouched. -/
def applyMnEdit (cfg : Config) (edit_id : Nat) (f : EditForm)
    (landedNew : ℚ) (requests : List Request) : List Request :=
  requests.map (fun r =>
    if r.id = edit_id then
      { r with
        mn_number := f.mn_no_new
        mn_issue_date := f.mn_issue_date
        cost_area := f.area
        estimated_cost := landedNew
        mn_particulars := f.mn_particulars
        mn_category := f.mn_category
        department := f.department
        location := f.location
        supplier_vendor := f.supplier_vendor
        supplier_type := f.supplier_type
        currency := f.currency
        foreign_spare_cost := f.foreign_spare_cost
        freight_fca_charges := f.freight_fca_charges
        customs_duty_rate := cfg.customs_duty_pct
        local_cost_wo_vat_ait := f.local_cost_wo_vat_ait
        vat_ait := f.vat_ait
        landed_total_cost := landedNew
        date_sent_ho := f.date_sent_ho
        plant_remarks := f.plant_remarks }
    else r)

/-- `admin_edit_mn_form` (`app_v11.py` lines 1844-2022): fetch the record
by id, run the field / duplicate checks, then the budget re-check -- a
changed cost area is checked against the new area's remaining balance,
an unchanged one against `remaining + original landed cost` -- and on
success perform the UPDATE. -/
def admin_edit_mn (budgets : List BudgetHead) (requests : List Request)
    (cfg : Config) (edit_id : Nat) (f : EditForm) :
    Except EditError (List Request) :=
  match requests.find? (fun r => r.id = edit_id) with
  | none => .error .notFound
  | some orig =>
    let landedNew := editLandedNew cfg f
    let missing := editMissingFields f
    if missing ≠ [] ∨ landedNew ≤ 0 then
      .error (.missingOrInvalid missing (decide (landedNew ≤ 0)))
    else if f.mn_no_new ≠ orig.mn_number ∧
        requests.any (fun r => r.mn_number = f.mn_no_new ∧ r.id ≠ edit_id) then
      .error (.duplicateMn f.mn_no_new)
    else if f.area ≠ orig.cost_area then
      match ledgerFind budgets requests f.area with
      | none => .error (.unknownArea f.area)
      | some row =>
        if landedNew > row.remaining then
          .error (.budgetExceededNewArea f.area row.remaining)
        else .ok (applyMnEdit cfg edit_id f landedNew requests)
    else
      match ledgerFind budgets requests orig.cost_area with
      | none => .error (.unknownArea orig.cost_area)
      | some row =>
        let available := row.remaining + orig.landed_total_cost
        if landedNew > available then
          .error (.budgetExceededSameArea f.area available)
        else .ok (applyMnEdit cfg edit_id f landedNew requests)

/-- Whether an edit attempt was accepted (the UPDATE committed). -/
def editAccepted (r : Except EditError (List Request)) : Bool :=
  match r with
  | .ok _ => true
  | .error _ => false

/-- The `Total Utilized Cost` figure `admin_edit_budget_form` reads for
an area, defaulting to 0 when the area has no ledger row (lines
2073, 2102). -/
def utilizationOf (budgets : List BudgetHead) (requests : List Request)
    (area : String) : ℚ :=
  ((ledgerFind budgets requests area).map (fun r => r.utilized)).getD 0

/-- The rejection branches of `admin_edit_budget_form`, in source order. -/
inductive BudgetEditError where
  | notFound
  | missingOrInvalid
  | budgetBelowUtilization (utilized : ℚ)
  | duplicateArea (area : String)
  | nonZeroUtilizationRename (area : String) (utilized : ℚ)
deriving DecidableEq

/-- `admin_edit_budget_form` (`app_v11.py` lines 2028-2118).  When the
area name is unchanged the new amount must cover current utilization;
when it changes (a rename) the new name must not collide with another
head and the old area's utilization must be 0.  The UPDATE touches only
the `budget_heads` row; the cascading `UPDATE requests` at lines
2084-2085 sits inside the name-unchanged branch guarded by
`area_new != original_area` and is therefore unreachable, so the
`requests` table is returned unmodified on every path. -/
def admin_edit_budget (budgets : List BudgetHead) (requests : List Request)
    (edit_id : Nat) (dept_new area_new : String) (amount_new : ℚ) :
    Except BudgetEditError (List BudgetHead × List Request) :=
  match budgets.find? (fun b => b.id = edit_id) with
  | none => .error .notFound
  | some orig =>
    if dept_new = "" ∨ area_new = "" ∨ amount_new ≤ 0 then
      .error .missingOrInvalid
    else if area_new = orig.cost_area then
      let u := utilizationOf budgets requests orig.cost_area
      if amount_new < u then .error (.budgetBelowUtilization u)
      else
        .ok (budgets.map (fun b =>
          if b.id = edit_id then
            { b with department := dept_new, cost_area := area_new,
                     total_budget := amount_new }
          else b), requests)
    else if budgets.any (fun b => b.cost_area = area_new ∧ b.id ≠ edit_id) then
      .error (.duplicateArea area_new)
    else
      let u := utilizationOf budgets requests orig.cost_area
      if u > 0 then .error (.nonZeroUtilizationRename orig.cost_area u)
      else
        .ok (budgets.map (fun b =>
          if b.id = edit_id then
            { b with department := dept_new, cost_area := area_new,
                     total_budget := amount_new }
          else b), requests)

/-- Whether a budget-edit outcome is the `NonZeroUtilizationRename`
rejection. -/
def isNonZeroUtilizationRename
    (r : Except BudgetEditError (List BudgetHead × List Request)) : Bool :=
  match r with
  | .error (.nonZeroUtilizationRename _ _) => true
  | _ => false

/-- A row of `indent_goods_details` attached to one bill (`id` is the
autoincrement key; `amount = quantity * rate` at insertion time). -/
structure GoodsItem where
  id : Nat
  description : String
  quantity : ℚ
  unit : String
  rate : ℚ
  amount : ℚ
deriving DecidableEq

/-- The state of one bill: its header's stored `total_bill_amount`, the
line items currently referencing its `bill_no`, and the next
autoincrement id.  Header text fields (supplier, dates, payment mode)
do not interact with the amount bookkeeping and are not modelled. -/
structure BillState where
  total_bill_amount : ℚ
  items : List GoodsItem
  nextId : Nat
deriving DecidableEq

/-- Raw inputs of one goods line on the new-bill page. -/
structure RawGoods where
  description : String
  quantity : ℚ
  unit : String
  rate : ℚ
deriving DecidableEq

/-- `add_goods_item` (`app_v11.py` lines 2446-2465): the staged goods
list grows only when description and unit are non-empty, quantity is
positive and rate non-negative; the stored `amount` is
`quantity * rate` as computed by the goods form (line 2478). -/
def stageGoods (acc : List RawGoods) (g : RawGoods) : List RawGoods :=
  if g.description = "" ∨ g.unit = "" ∨ g.quantity ≤ 0 ∨ g.rate < 0 then acc
  else acc ++ [g]

/-- `final_indent_form` (`app_v11.py` lines 2505-2586): saving a new
bill requires at least one staged item and a positive total; the header
is inserted with `total_bill_amount` equal to the sum of the staged
items' amounts and each item is inserted referencing the bill.
(The duplicate-`bill_no` check and the header text fields are guarded
the same way in the source but do not affect the stored amounts.) -/
def createBill (raw : List RawGoods) : Option BillState :=
  let staged := raw.foldl stageGoods []
  let amounts := staged.map (fun g => g.quantity * g.rate)
  if staged = [] ∨ amounts.sum ≤ 0 then none
  else
    some { total_bill_amount := amounts.sum
           items := (List.range staged.length).zip staged |>.map
             (fun p => { id := p.1, description := p.2.description,
                         quantity := p.2.quantity, unit := p.2.unit,
                         rate := p.2.rate,
                         amount := p.2.quantity * p.2.rate })
           nextId := staged.length }

/-- A committed line-item mutation on an existing bill. -/
inductive BillOp where
  | add (description : String) (quantity : ℚ) (unit : String) (rate : ℚ)
  | del (id : Nat)
deriving DecidableEq

/-- The two line-item handlers of the admin INDENT edit page.
`add` (`add_goods_to_existing_bill_form`, lines 2300-2329): validate,
insert the item with `amount = quantity * rate`, then set the header
total to `current_total + amount`; a failed validation commits nothing.
`del` (lines 2254-2280): read the selected item's amount, delete the
row, then set the header total to `current_total - amount`; selecting
nothing leaves the state untouched. -/
def applyBillOp (st : BillState) (op : BillOp) : BillState :=
  match op with
  | .add description quantity unit rate =>
    if description = "" ∨ unit = "" ∨ quantity ≤ 0 ∨ rate < 0 then st
    else
      let amount := quantity * rate
      { total_bill_amount := st.total_bill_amount + amount
        items := st.items ++ [{ id := st.nextId, description := description,
                                quantity := quantity, unit := unit,
                                rate := rate, amount := amount }]
        nextId := st.nextId + 1 }
  | .del id =>
    match st.items.find? (fun i => i.id = id) with
    | none => st
    | some item =>
      { total_bill_amount := st.total_bill_amount - item.amount
        items := st.items.filter (fun i => i.id ≠ id)
        nextId := st.nextId }

/-- The invariant of claim C5: the stored header total equals the sum of
the amounts of the line items currently referencing the bill. -/
def billInvariant (st : BillState) : Prop :=
  st.total_bill_amount = (st.items.map (fun i => i.amount)).sum

/-- Well-formedness the autoincrement key guarantees: item ids are
pairwise distinct and below the next id. -/
def billWF (st : BillState) : Prop :=
  (st.items.map (fun i => i.id)).Nodup ∧ ∀ i ∈ st.items, i.id < st.nextId

/-- The full store as the status-update handler sees it. -/
structure Db where
  budget_heads : List BudgetHead
  requests : List Request
deriving DecidableEq

/-- `status_update_form` (`app_v11.py` lines 1011-1018):
`UPDATE requests SET status = ? WHERE id = ?` -- the selected row's
status column is overwritten and nothing else is touched. -/
def status_update (db : Db) (selected_id : Nat) (new_status : String) : Db :=
  { db with requests := db.requests.map (fun r =>
      if r.id = selected_id then { r with status := new_status } else r) }

/-- The first-failure composition the spec describes for the create
validator, with each check a separate stage: (1) mandatory fields
present and cost fields non-negative, (2) computed landed cost
positive, (3) `mn_number` fresh, (4) landed cost within the target
area's remaining balance (applicable only when the area has a ledger
row), (5) the area has a ledger row.  Stages (1) and (2) are written
here as one combined stage reporting both failures, matching the
source's single message; the remaining stages report the first failure
in order.  Written to compare against `mn_submission_validate`. -/
def claimOrderValidate (budgets : List BudgetHead)
    (requests : List Request) (cfg : Config) (f : CreateForm) :
    Option CreateError :=
  let stage12 : Option CreateError :=
    if createMissingFields f ≠ [] ∨ createCostInvalid cfg f then
      some (.missingOrInvalid (createMissingFields f) (createCostInvalid cfg f))
    else none
  let stage3 : Option CreateError :=
    if requests.any (fun r => r.mn_number = f.mn_no) then
      some (.duplicateMn f.mn_no)
    else none
  let stage4 : Option CreateError :=
    match ledgerFind budgets requests (f.area.getD "") with
    | some row =>
      if createLanded cfg f > row.remaining then
        some (.budgetExceeded (f.area.getD "") row.remaining)
      else none
    | none => none
  let stage5 : Option CreateError :=
    match ledgerFind budgets requests (f.area.getD "") with
    | none => some (.unknownCostArea (f.area.getD ""))
    | some _ => none
  stage12 <|> stage3 <|> stage4 <|> stage5

/-- Decidable equality for `Except`, so concrete handler outcomes can be
settled by `decide`. -/
instance exceptDecEq {e a : Type} [DecidableEq e] [DecidableEq a] :
    DecidableEq (Except e a) := fun x y =>
  match x, y with
  | .error v, .error w =>
    if h : v = w then .isTrue (by rw [h])
    else .isFalse (fun hc => h (by injection hc))
  | .ok v, .ok w =>
    if h : v = w then .isTrue (by rw [h])
    else .isFalse (fun hc => h (by injection hc))
  | .error _, .ok _ => .isFalse (fun hc => Except.noConfusion hc)
  | .ok _, .error _ => .isFalse (fun hc => Except.noConfusion hc)

/-! ### Concrete fixtures used by witnesses and counterexamples -/

/-- A concrete exchange/duty configuration (the source's default rates:
USD 110, EUR 120, GBP 130, INR 1.50, Other 100, duty 5%). -/
def cfg0 : Config :=
  { usd_rate := 110, eur_rate := 120, gbp_rate := 130, inr_rate := 3/2,
    other_rate := 100, customs_duty_pct := 1/20 }

/-- A fully populated request row used as existing-table content. -/
def req0 : Request :=
  { id := 1, mn_number := "MN-001", mn_issue_date := "2026-01-05",
    date_logged := "2026-01-05", requester := "admin",
    cost_area := "AREA-A", estimated_cost := 100, status := "Pending",
    mn_particulars := "pump repair", mn_category := "R&M (Repair & Maintenance)",
    department := "Mechanical", location := "Plant-1",
    supplier_vendor := "ACME", supplier_type := "Local", currency := "BDT",
    foreign_spare_cost := 0, freight_fca_charges := 0,
    customs_duty_rate := 0, local_cost_wo_vat_ait := 80, vat_ait := 20,
    landed_total_cost := 100, date_sent_ho := "2026-01-06",
    plant_remarks := "" }

/-- A complete, valid create-form submission targeting `AREA-A` with
landed cost `0*(1+duty)*1 + 0 + 100 + 50 = 150`. -/
def form0 : CreateForm :=
  { mn_no := "MN-001", mn_category := some "R&M (Repair & Maintenance)",
    department := some "Mechanical", area := some "AREA-A",
    location := "Plant-1", supplier_vendor := "ACME",
    supplier_type := some "Local", currency := "BDT",
    mn_particulars := "pump repair", mn_issue_date := "2026-01-05",
    date_sent_ho := "2026-01-06", foreign_spare_cost := 0,
    freight_fca_charges := 0, local_cost_wo_vat_ait := 100, vat_ait := 50,
    requester := "admin", plant_remarks := "" }

/-- One budget head: `AREA-A` with a 150 BDT budget. -/
def budgetsA : List BudgetHead :=
  [{ id := 1, department := "Mechanical", cost_area := "AREA-A",
     total_budget := 150 }]

/-- Two budget heads, for the rename counterexample. -/
def budgetsAB : List BudgetHead :=
  [{ id := 1, department := "Mechanical", cost_area := "AREA-A",
     total_budget := 100 },
   { id := 2, department := "Mechanical", cost_area := "AREA-B",
     total_budget := 100 }]

/-- Budget heads for the edit-delta witness: `AREA-A` holds 150 and
`AREA-B` 90, with `req0` (landed cost 100) charged to `AREA-A`. -/
def budgetsEdit : List BudgetHead :=
  [{ id := 1, department := "Mechanical", cost_area := "AREA-A",
     total_budget := 150 },
   { id := 2, department := "Mechanical", cost_area := "AREA-B",
     total_budget := 90 }]

/-- An edit of `req0` that keeps `AREA-A` and raises the cost to
`0 + 0 + 120 + 20 = 140`. -/
def editForm0 : EditForm :=
  { mn_no_new := "MN-001", mn_category := "R&M (Repair & Maintenance)",
    department := "Mechanical", area := "AREA-A", location := "Plant-1",
    supplier_vendor := "ACME", supplier_type := "Local", currency := "BDT",
    mn_particulars := "pump repair", mn_issue_date := "2026-01-05",
    date_sent_ho := "2026-01-06", foreign_spare_cost := 0,
    freight_fca_charges := 0, local_cost_wo_vat_ait := 120, vat_ait := 20,
    plant_remarks := "" }

/-- A zero-landed-cost request charged to `AREA-A` (utilization 0). -/
def reqZero : Request :=
  { req0 with id := 7, mn_number := "MN-007", estimated_cost := 0,
              local_cost_wo_vat_ait := 0, vat_ait := 0,
              landed_total_cost := 0 }

/-- `form0` with the mandatory Location field blanked. -/
def formBlankLoc : CreateForm := { form0 with location := " " }

/-- `form0` with Location blanked and every cost zero, so the computed
landed cost is 0 as well. -/
def formBlankLocZero : CreateForm :=
  { form0 with location := " ", local_cost_wo_vat_ait := 0, vat_ait := 0 }

/-! ### Helper lemmas -/

theorem lookupSpent_bumpSpent (t : List (String × ℚ)) (area : String) (v : ℚ)
    (a : String) :
    lookupSpent (bumpSpent area v t) a =
      if area = a then lookupSpent t a + v else lookupSpent t a := by
  induction t with
  | nil =>
    by_cases h : area = a <;> simp [bumpSpent, lookupSpent, h]
  | cons p t ih =>
    obtain ⟨b, s⟩ := p
    by_cases hb : b = area
    · subst hb
      by_cases hba : b = a
      · subst hba
        simp [bumpSpent, lookupSpent]
      · simp [bumpSpent, lookupSpent, hba]
    · by_cases hba : b = a
      · subst hba
        have hna : ¬ area = b := fun h => hb h.symm
        simp [bumpSpent, lookupSpent, hb, hna]
      · simp only [bumpSpent, if_neg hb]
        by_cases haa : area = a
        · subst haa
          simpa [lookupSpent, hba] using ih
        · simpa [lookupSpent, hba, haa] using ih

theorem lookupSpent_foldl (rs : List Request) (acc : List (String × ℚ))
    (a : String) :
    lookupSpent
      (rs.foldl (fun acc r => bumpSpent r.cost_area r.landed_total_cost acc) acc)
      a =
    lookupSpent acc a +
      ((rs.filter (fun r => r.cost_area = a)).map
        (fun r => r.landed_total_cost)).sum := by
  induction rs generalizing acc with
  | nil => simp
  | cons r rs ih =>
    simp only [List.foldl_cons]
    rw [ih]
    rw [lookupSpent_bumpSpent]
    by_cases h : r.cost_area = a
    · simp [h, List.filter_cons]
      ring
    · simp [h, List.filter_cons]

theorem lookupSpent_spentByArea (rs : List Request) (a : String) :
    lookupSpent (spentByArea rs) a =
      ((rs.filter (fun r => r.cost_area = a)).map
        (fun r => r.landed_total_cost)).sum := by
  have h := lookupSpent_foldl rs [] a
  simpa [spentByArea, lookupSpent] using h

theorem spentByArea_map_preserving (f : Request → Request)
    (hca : ∀ r, (f r).cost_area = r.cost_area)
    (hlc : ∀ r, (f r).landed_total_cost = r.landed_total_cost)
    (rs : List Request) : spentByArea (rs.map f) = spentByArea rs := by
  unfold spentByArea
  rw [List.foldl_map]
  have : ∀ (acc : List (String × ℚ)),
      rs.foldl (fun acc r =>
        bumpSpent (f r).cost_area (f r).landed_total_cost acc) acc =
      rs.foldl (fun acc r =>
        bumpSpent r.cost_area r.landed_total_cost acc) acc := by
    intro acc
    induction rs generalizing acc with
    | nil => rfl
    | cons r rs ih => simp only [List.foldl_cons, hca, hlc, ih]
  exact this []

theorem createCostInvalid_eq_false (cfg : Config) (f : CreateForm) :
    createCostInvalid cfg f = false ↔
      0 ≤ f.foreign_spare_cost ∧ 0 ≤ f.freight_fca_charges ∧
      0 ≤ f.local_cost_wo_vat_ait ∧ 0 ≤ f.vat_ait ∧
      0 < createLanded cfg f := by
  simp [createCostInvalid, not_lt, and_assoc]

theorem mn_submission_validate_unfold_ok (budgets : List BudgetHead)
    (requests : List Request) (cfg : Config) (f : CreateForm)
    (hmiss : createMissingFields f = [])
    (hci : createCostInvalid cfg f = false)
    (hdup : requests.any (fun r => r.mn_number = f.mn_no) = false) :
    mn_submission_validate budgets requests cfg f =
      (match ledgerFind budgets requests (f.area.getD "") with
       | none => some (.unknownCostArea (f.area.getD ""))
       | some row =>
         if createLanded cfg f > row.remaining then
           some (.budgetExceeded (f.area.getD "") row.remaining)
         else none) := by
  unfold mn_submission_validate
  rw [if_neg, if_neg]
  · exact fun h => by simp [hdup] at h
  · intro h
    rcases h with h | h
    · exact h hmiss
    · rw [hci] at h
      exact Bool.false_ne_true h

/-! ### Claim theorems -/

/-- C2: for all non-negative cost inputs, any currency of the configured
set with positive rate, and customs duty in [0,1], the landed total cost
computed on the create path and on the edit path both equal the spec's
formula `(foreign_spare_cost * (1 + duty) + freight) * fx_rate +
local_cost + vat_ait` exactly. -/
theorem landed_cost_formula_matches (fsc ffc lcwa va : ℚ) (cfg : Config)
    (currency : String)
    (h1 : 0 ≤ fsc) (h2 : 0 ≤ ffc) (h3 : 0 ≤ lcwa) (h4 : 0 ≤ va)
    (hcur : currency ∈ ["BDT", "USD", "EUR", "GBP", "INR", "Other"])
    (hfx : 0 < fxRate cfg currency)
    (hd0 : 0 ≤ cfg.customs_duty_pct) (hd1 : cfg.customs_duty_pct ≤ 1) :
    landed_total_cost_create fsc ffc lcwa va cfg.customs_duty_pct
        (fxRate cfg currency) =
      computeLandedCostSpec fsc ffc lcwa va cfg.customs_duty_pct
        (fxRate cfg currency) ∧
    landed_total_cost_new fsc ffc lcwa va cfg.customs_duty_pct
        (fxRate cfg currency) =
      computeLandedCostSpec fsc ffc lcwa va cfg.customs_duty_pct
        (fxRate cfg currency) :=
  ⟨rfl, rfl⟩

/-- Witness for C2, at the spec's own example: foreign 1000, freight 200,
duty 5%, USD at 110, local 500, VAT/AIT 50, giving 138050. -/
theorem landed_cost_formula_matches_witness :
    (0:ℚ) ≤ 1000 ∧ 0 < fxRate cfg0 "USD" ∧
    landed_total_cost_create 1000 200 500 50 cfg0.customs_duty_pct
        (fxRate cfg0 "USD") =
      computeLandedCostSpec 1000 200 500 50 cfg0.customs_duty_pct
        (fxRate cfg0 "USD") ∧
    computeLandedCostSpec 1000 200 500 50 (1/20) 110 = 138050 :=
  ⟨by norm_num, by decide,
   (landed_cost_formula_matches 1000 200 500 50 cfg0 "USD" (by norm_num)
      (by norm_num) (by norm_num) (by norm_num) (by decide) (by decide)
      (by norm_num [cfg0]) (by norm_num [cfg0])).1,
   by norm_num [computeLandedCostSpec]⟩

/-- C4: for every budget-head and request set, `calculate_status` reports
one ledger row per budget head whose utilized cost is the sum of landed
costs of the requests attributed to that area (0 when none), remaining
balance `total_budget - utilized`, utilization percentage
`utilized / total_budget * 100` when the budget is positive and 0
otherwise; the grand totals are the sums of the per-row values, and a
request whose cost area has no budget head leaves the whole ledger
unchanged. -/
theorem budget_ledger_correct (budgets : List BudgetHead)
    (requests : List Request) :
    List.Forall₂ (fun (b : BudgetHead) (row : LedgerRow) =>
        row.cost_area = b.cost_area ∧
        row.total_budget = b.total_budget ∧
        row.utilized = ((requests.filter (fun r => r.cost_area = b.cost_area)).map
            (fun r => r.landed_total_cost)).sum ∧
        row.remaining = b.total_budget - row.utilized ∧
        row.utilizationPct =
          (if b.total_budget > 0 then row.utilized / b.total_budget * 100 else 0))
      budgets (calculate_status budgets requests).1 ∧
    (calculate_status budgets requests).2.1 =
      ((calculate_status budgets requests).1.map (fun r => r.total_budget)).sum ∧
    (calculate_status budgets requests).2.2.1 =
      ((calculate_status budgets requests).1.map (fun r => r.utilized)).sum ∧
    (calculate_status budgets requests).2.2.2 =
      (calculate_status budgets requests).2.1 -
        (calculate_status budgets requests).2.2.1 ∧
    (∀ r : Request, r.cost_area ∉ budgets.map (fun b => b.cost_area) →
      calculate_status budgets (r :: requests) =
        calculate_status budgets requests) := by
  by_cases hb : budgets.isEmpty
  · have hnil : budgets = [] := List.isEmpty_iff.mp hb
    subst hnil
    refine ⟨List.Forall₂.nil, ?_, ?_, ?_, ?_⟩ <;>
      simp [calculate_status]
  · have hfa : ∀ l : List BudgetHead,
        (∀ b ∈ l, b ∈ budgets) →
        List.Forall₂ (fun (b : BudgetHead) (row : LedgerRow) =>
          row.cost_area = b.cost_area ∧
          row.total_budget = b.total_budget ∧
          row.utilized =
            ((requests.filter (fun r => r.cost_area = b.cost_area)).map
              (fun r => r.landed_total_cost)).sum ∧
          row.remaining = b.total_budget - row.utilized ∧
          row.utilizationPct =
            (if b.total_budget > 0 then row.utilized / b.total_budget * 100
             else 0))
        l (l.map (ledgerRowFor (spentByArea requests))) := by
      intro l
      induction l with
      | nil => intro _; exact List.Forall₂.nil
      | cons b t ih =>
        intro hmem
        refine List.Forall₂.cons ?_ (ih (fun x hx => hmem x (by simp [hx])))
        refine ⟨rfl, rfl, ?_, rfl, ?_⟩
        · simp [ledgerRowFor, lookupSpent_spentByArea]
        · simp [ledgerRowFor, lookupSpent_spentByArea]
    refine ⟨?_, ?_, ?_, ?_, ?_⟩
    · simpa [calculate_status, hb] using hfa budgets (fun _ hx => hx)
    · simp [calculate_status, hb]
    · simp [calculate_status, hb]
    · simp [calculate_status, hb]
    · intro r hr
      have hrows : budgets.map (ledgerRowFor (spentByArea (r :: requests))) =
          budgets.map (ledgerRowFor (spentByArea requests)) := by
        refine List.map_congr_left ?_
        intro b hbmem
        have hne : r.cost_area ≠ b.cost_area := by
          intro h
          exact hr (by
            simp only [List.mem_map]
            exact ⟨b, hbmem, h.symm⟩)
        unfold ledgerRowFor
        rw [lookupSpent_spentByArea, lookupSpent_spentByArea,
            List.filter_cons]
        simp [hne]
      simp [calculate_status, hb, hrows]

/-- Witness for C4: a concrete two-head ledger where the orphan-request
conjunct is applied to a request charged to an unknown area. -/
theorem budget_ledger_correct_witness :
    ({ req0 with cost_area := "ORPHAN" } : Request).cost_area ∉
        budgetsAB.map (fun b => b.cost_area) ∧
    calculate_status budgetsAB
        ({ req0 with cost_area := "ORPHAN" } :: [req0]) =
      calculate_status budgetsAB [req0] :=
  ⟨by decide,
    (budget_ledger_correct budgetsAB [req0]).2.2.2.2
      { req0 with cost_area := "ORPHAN" } (by decide)⟩

/-- C3 (code bug): with `AREA-A` holding remaining balance 150, the
submission `form0` (landed cost exactly 150) passes every check, yet the
source then crashes on the unbound name `customs_duty_rate` in the
INSERT parameter tuple (`app_v11.py` line 1234) and inserts nothing --
the sibling variants `app_v8.py` / `app_v6_final.py` pass
`customs_duty_pct` there, and v11's own edit path does too, so the
intended insert (status "Pending") never happens.  Raising the cost by
0.01 is still rejected with the `BudgetExceeded` error carrying the
remaining amount, as the claim states. -/
theorem mn_create_success_path_crashes :
    mn_submission_validate budgetsA [] cfg0 form0 = none ∧
    mn_submission_submit budgetsA [] cfg0 form0 =
      (SubmitOutcome.nameErrorCrash, []) ∧
    mn_submission_validate budgetsA [] cfg0
        { form0 with vat_ait := 50 + 1/100 } =
      some (.budgetExceeded "AREA-A" 150) := by
  have hland : createLanded cfg0 form0 = 150 := by
    norm_num [createLanded, landed_total_cost_create, fxRate, cfg0, form0]
  have hland2 : createLanded cfg0 { form0 with vat_ait := 50 + 1/100 } =
      150 + 1/100 := by
    norm_num [createLanded, landed_total_cost_create, fxRate, cfg0, form0]
  have hmiss : createMissingFields form0 = [] := by decide
  have hmiss2 : createMissingFields { form0 with vat_ait := 50 + 1/100 } = [] := by
    decide
  have hci : createCostInvalid cfg0 form0 = false := by
    rw [createCostInvalid_eq_false, hland]
    norm_num [form0]
  have hci2 : createCostInvalid cfg0 { form0 with vat_ait := 50 + 1/100 } =
      false := by
    rw [createCostInvalid_eq_false, hland2]
    norm_num [form0]
  have hledger : ledgerFind budgetsA [] "AREA-A" =
      some { cost_area := "AREA-A", department := "Mechanical",
             total_budget := 150, utilized := 0, remaining := 150,
             utilizationPct := 0 } := by
    norm_num [ledgerFind, calculate_status, spentByArea, lookupSpent,
              ledgerRowFor, budgetsA, List.find?]
  have h1 : mn_submission_validate budgetsA [] cfg0 form0 = none := by
    rw [mn_submission_validate_unfold_ok budgetsA [] cfg0 form0 hmiss hci rfl]
    have harea : form0.area.getD "" = "AREA-A" := by decide
    rw [harea, hledger]
    simp only [hland]
    norm_num
  refine ⟨h1, ?_, ?_⟩
  · rw [mn_submission_submit, h1]
  · rw [mn_submission_validate_unfold_ok budgetsA [] cfg0
        { form0 with vat_ait := 50 + 1/100 } hmiss2 hci2 rfl]
    have harea : ({ form0 with vat_ait := 50 + 1/100 } :
        CreateForm).area.getD "" = "AREA-A" := by decide
    rw [harea, hledger]
    simp only [hland2]
    norm_num

/-- C7 counterexample: a submission whose `mn_number` duplicates the
existing `req0` but whose Location field is blank is rejected by the
mandatory-field stage, not with the duplicate-key error -- the source
runs the duplicate check only after the field/cost stage passes
(`app_v11.py` lines 1176-1204), so a duplicate `mn_number` does not
always yield the DuplicateKey rejection. -/
theorem duplicate_mn_counterexample :
    req0.mn_number = ({ form0 with location := "" } : CreateForm).mn_no ∧
    mn_submission_validate budgetsA [req0] cfg0 { form0 with location := "" } =
      some (.missingOrInvalid ["Location"] false) ∧
    mn_submission_validate budgetsA [req0] cfg0 { form0 with location := "" } ≠
      some (.duplicateMn "MN-001") := by
  have hci : createCostInvalid cfg0 { form0 with location := "" } = false := by
    rw [createCostInvalid_eq_false]
    norm_num [createLanded, landed_total_cost_create, fxRate, cfg0, form0]
  have hmiss : createMissingFields { form0 with location := "" } =
      ["Location"] := by decide
  have hv : mn_submission_validate budgetsA [req0] cfg0
      { form0 with location := "" } =
      some (.missingOrInvalid ["Location"] false) := by
    unfold mn_submission_validate
    rw [if_pos (Or.inl (by rw [hmiss]; exact by decide)), hmiss, hci]
  exact ⟨rfl, hv, by rw [hv]; exact fun h => by simp at h⟩

/-- C7 (amended): a create submission whose `mn_number` equals an
existing request's is always rejected and never inserts a row; the
rejection carries the DuplicateKey error exactly when the
mandatory-field / cost stage passes, and otherwise carries that stage's
error instead. -/
theorem duplicate_mn_always_blocks (budgets : List BudgetHead)
    (requests : List Request) (cfg : Config) (f : CreateForm) (r : Request)
    (hr : r ∈ requests) (hmn : r.mn_number = f.mn_no) :
    (∃ e, mn_submission_validate budgets requests cfg f = some e) ∧
    (mn_submission_submit budgets requests cfg f).2 = requests ∧
    (createMissingFields f = [] → createCostInvalid cfg f = false →
      mn_submission_validate budgets requests cfg f =
        some (.duplicateMn f.mn_no)) := by
  have hdup : requests.any (fun r => r.mn_number = f.mn_no) = true :=
    List.any_eq_true.mpr ⟨r, hr, by simp [hmn]⟩
  refine ⟨?_, ?_, ?_⟩
  · unfold mn_submission_validate
    by_cases hc : createMissingFields f ≠ [] ∨ createCostInvalid cfg f = true
    · rw [if_pos hc]
      exact ⟨_, rfl⟩
    · rw [if_neg hc, if_pos hdup]
      exact ⟨_, rfl⟩
  · unfold mn_submission_submit
    cases h : mn_submission_validate budgets requests cfg f <;> simp
  · intro h1 h2
    unfold mn_submission_validate
    rw [if_neg, if_pos hdup]
    intro h
    rcases h with h | h
    · exact h h1
    · rw [h2] at h
      exact Bool.false_ne_true h

/-- Witness for C7 (amended): `form0` duplicates `req0`'s MN number and
carries valid fields, so the rejection is the DuplicateKey error. -/
theorem duplicate_mn_always_blocks_witness :
    req0.mn_number = form0.mn_no ∧
    mn_submission_validate budgetsA [req0] cfg0 form0 =
      some (.duplicateMn form0.mn_no) :=
  ⟨rfl,
   (duplicate_mn_always_blocks budgetsA [req0] cfg0 form0 req0 (by simp)
      rfl).2.2 (by decide)
      (by rw [createCostInvalid_eq_false]
          norm_num [createLanded, landed_total_cost_create, fxRate, cfg0,
                    form0])⟩

/-- C8 counterexample: two submissions that both fail check (1) first
with the same single blank field (Location) receive different reported
errors, because the source folds check (2) -- positive landed cost --
into the same stage and its message: with a positive landed cost the
error carries `costInvalid = false`, with landed cost 0 it carries
`costInvalid = true`.  The first failing check therefore does not
determine the reported error, refuting the claimed separate ordering of
checks (1) and (2). -/
theorem create_check_order_counterexample :
    createMissingFields formBlankLoc = ["Location"] ∧
    createMissingFields formBlankLocZero = ["Location"] ∧
    mn_submission_validate budgetsA [] cfg0 formBlankLoc =
      some (.missingOrInvalid ["Location"] false) ∧
    mn_submission_validate budgetsA [] cfg0 formBlankLocZero =
      some (.missingOrInvalid ["Location"] true) ∧
    mn_submission_validate budgetsA [] cfg0 formBlankLoc ≠
      mn_submission_validate budgetsA [] cfg0 formBlankLocZero := by
  have hci1 : createCostInvalid cfg0 formBlankLoc = false := by
    rw [createCostInvalid_eq_false]
    norm_num [createLanded, landed_total_cost_create, fxRate, cfg0,
              formBlankLoc, form0]
  have hci2 : createCostInvalid cfg0 formBlankLocZero = true := by
    have : createLanded cfg0 formBlankLocZero = 0 := by
      norm_num [createLanded, landed_total_cost_create, fxRate, cfg0,
                formBlankLocZero, form0]
    simp [createCostInvalid, this]
  have hm1 : createMissingFields formBlankLoc = ["Location"] := by decide
  have hm2 : createMissingFields formBlankLocZero = ["Location"] := by decide
  have hv1 : mn_submission_validate budgetsA [] cfg0 formBlankLoc =
      some (.missingOrInvalid ["Location"] false) := by
    unfold mn_submission_validate
    rw [if_pos (Or.inl (by rw [hm1]; exact by decide)), hm1, hci1]
  have hv2 : mn_submission_validate budgetsA [] cfg0 formBlankLocZero =
      some (.missingOrInvalid ["Location"] true) := by
    unfold mn_submission_validate
    rw [if_pos (Or.inl (by rw [hm2]; exact by decide)), hm2, hci2]
  refine ⟨hm1, hm2, hv1, hv2, ?_⟩
  rw [hv1, hv2]
  intro h
  simp at h

/-- C8 (amended): the create validator is exactly a first-failure
composition of staged checks in the order: (1)+(2) mandatory fields and
cost validity evaluated together as one stage whose error reports both,
(3) duplicate `mn_number`, (4) budget-within-remaining-balance
(applicable when the area has a ledger row), (5) unknown cost area. -/
theorem create_check_order_matches (budgets : List BudgetHead)
    (requests : List Request) (cfg : Config) (f : CreateForm) :
    mn_submission_validate budgets requests cfg f =
      claimOrderValidate budgets requests cfg f := by
  unfold mn_submission_validate claimOrderValidate
  by_cases h1 : createMissingFields f ≠ [] ∨ createCostInvalid cfg f = true
  · rw [if_pos h1, if_pos h1]
    simp
  · rw [if_neg h1, if_neg h1]
    by_cases h2 : requests.any (fun r => r.mn_number = f.mn_no) = true
    · rw [if_pos h2, if_pos h2]
      simp
    · rw [if_neg h2, if_neg h2]
      cases hfind : ledgerFind budgets requests (f.area.getD "") with
      | none => simp [hfind]
      | some row =>
        by_cases h3 : createLanded cfg f > row.remaining
        · simp [hfind, h3]
        · simp [hfind, h3]

/-- C1: for an admin edit that passes the field and duplicate checks, if
the cost area is unchanged the edit is accepted exactly when the
recomputed landed cost is at most the area's current remaining balance
plus the request's original landed cost, and a violation is rejected
with the BudgetExceeded error carrying that available amount; if the
cost area changes, the edit is accepted exactly when the recomputed cost
is at most the new area's remaining balance (no credit from the old
area), and a violation is rejected with the BudgetExceeded error
carrying the new area's remaining balance. -/
theorem mn_edit_budget_delta (budgets : List BudgetHead)
    (requests : List Request) (cfg : Config) (edit_id : Nat) (f : EditForm)
    (orig : Request) (row : LedgerRow)
    (hfind : requests.find? (fun r => r.id = edit_id) = some orig)
    (hmiss : editMissingFields f = [])
    (hpos : 0 < editLandedNew cfg f)
    (hdup : ¬ (f.mn_no_new ≠ orig.mn_number ∧
      (requests.any (fun r => r.mn_number = f.mn_no_new ∧ r.id ≠ edit_id))
        = true)) :
    (f.area = orig.cost_area →
      ledgerFind budgets requests orig.cost_area = some row →
      ((editAccepted (admin_edit_mn budgets requests cfg edit_id f) = true ↔
          editLandedNew cfg f ≤ row.remaining + orig.landed_total_cost) ∧
       (editLandedNew cfg f > row.remaining + orig.landed_total_cost →
          admin_edit_mn budgets requests cfg edit_id f =
            .error (.budgetExceededSameArea f.area
              (row.remaining + orig.landed_total_cost))))) ∧
    (f.area ≠ orig.cost_area →
      ledgerFind budgets requests f.area = some row →
      ((editAccepted (admin_edit_mn budgets requests cfg edit_id f) = true ↔
          editLandedNew cfg f ≤ row.remaining) ∧
       (editLandedNew cfg f > row.remaining →
          admin_edit_mn budgets requests cfg edit_id f =
            .error (.budgetExceededNewArea f.area row.remaining)))) := by
  have hnotfirst : ¬ (editMissingFields f ≠ [] ∨ editLandedNew cfg f ≤ 0) := by
    intro h
    rcases h with h | h
    · exact h hmiss
    · exact absurd hpos (not_lt.mpr h)
  constructor
  · intro harea hrow
    have hne : ¬ f.area ≠ orig.cost_area := fun h => h harea
    simp only [admin_edit_mn, hfind, if_neg hnotfirst, if_neg hdup,
               if_neg hne, hrow]
    constructor
    · by_cases hgt : editLandedNew cfg f >
          row.remaining + orig.landed_total_cost
      · simp only [if_pos hgt, editAccepted]
        constructor
        · intro h
          exact absurd h (by simp)
        · intro h
          exact absurd hgt (not_lt.mpr h)
      · simp only [if_neg hgt, editAccepted]
        constructor
        · intro _
          exact not_lt.mp hgt
        · intro _
          trivial
    · intro hgt
      rw [if_pos hgt, harea]
  · intro harea hrow
    simp only [admin_edit_mn, hfind, if_neg hnotfirst, if_neg hdup,
               if_pos harea, hrow]
    constructor
    · by_cases hgt : editLandedNew cfg f > row.remaining
      · simp only [if_pos hgt, editAccepted]
        constructor
        · intro h
          exact absurd h (by simp)
        · intro h
          exact absurd hgt (not_lt.mpr h)
      · simp only [if_neg hgt, editAccepted]
        constructor
        · intro _
          exact not_lt.mp hgt
        · intro _
          trivial
    · intro hgt
      rw [if_pos hgt]

/-- Witness for C1, at the spec's P5 numbers: `req0` costs 100 in
`AREA-A` whose remaining balance is 50 (budget 150), and an edit within
the same area raising the cost to 140 is accepted since
140 <= 50 + 100. -/
theorem mn_edit_budget_delta_witness :
    editMissingFields editForm0 = [] ∧
    editForm0.area = req0.cost_area ∧
    editAccepted (admin_edit_mn budgetsEdit [req0] cfg0 1 editForm0) =
      true := by
  have hfind : ([req0] : List Request).find? (fun r => r.id = 1) =
      some req0 := rfl
  have hrow : ledgerFind budgetsEdit [req0] "AREA-A" =
      some { cost_area := "AREA-A", department := "Mechanical",
             total_budget := 150, utilized := 100, remaining := 50,
             utilizationPct := 200/3 } := by
    norm_num [ledgerFind, calculate_status, spentByArea, bumpSpent,
              lookupSpent, ledgerRowFor, budgetsEdit, req0, List.find?]
  have hpos : 0 < editLandedNew cfg0 editForm0 := by
    norm_num [editLandedNew, landed_total_cost_new, fxRate, cfg0, editForm0]
  have happ := (mn_edit_budget_delta budgetsEdit [req0] cfg0 1 editForm0 req0
      { cost_area := "AREA-A", department := "Mechanical",
        total_budget := 150, utilized := 100, remaining := 50,
        utilizationPct := 200/3 }
      hfind (by decide) hpos (by decide)).1 rfl hrow
  refine ⟨by decide, rfl, ?_⟩
  exact happ.1.mpr (by
    norm_num [editLandedNew, landed_total_cost_new, fxRate, cfg0, editForm0,
              req0])

/-- C6 counterexample: `AREA-A` has utilized cost 100 > 0, yet renaming
its budget head to the already-taken name `AREA-B` is rejected by the
duplicate-name check (`app_v11.py` lines 2092-2098), which runs before
the utilization check -- so a rename attempt on a non-zero-utilization
area is not always rejected with the NonZeroUtilizationRename error. -/
theorem budget_rename_counterexample :
    utilizationOf budgetsAB [req0] "AREA-A" = 100 ∧
    admin_edit_budget budgetsAB [req0] 1 "Mechanical" "AREA-B" 100 =
      .error (.duplicateArea "AREA-B") ∧
    isNonZeroUtilizationRename
      (admin_edit_budget budgetsAB [req0] 1 "Mechanical" "AREA-B" 100) =
      false := by
  have hu : utilizationOf budgetsAB [req0] "AREA-A" = 100 := by
    norm_num [utilizationOf, ledgerFind, calculate_status, spentByArea,
              bumpSpent, lookupSpent, ledgerRowFor, budgetsAB, req0,
              List.find?]
  have hres : admin_edit_budget budgetsAB [req0] 1 "Mechanical" "AREA-B" 100 =
      .error (.duplicateArea "AREA-B") := by decide
  exact ⟨hu, hres, by rw [hres]; rfl⟩

/-- C6 (amended): a budget-head rename attempt on an area with non-zero
utilized cost is always rejected (the head keeps its old `cost_area`),
with the NonZeroUtilizationRename error exactly when the fields are
valid and the new name does not collide with another head, and with
that earlier check's error otherwise; when utilized cost is 0 and those
checks pass, the rename succeeds and leaves the `requests` table
unmodified (the cascade is a no-op on Requests). -/
theorem budget_rename_guard (budgets : List BudgetHead)
    (requests : List Request) (edit_id : Nat)
    (dept_new area_new : String) (amount_new : ℚ) (orig : BudgetHead)
    (hfind : budgets.find? (fun b => b.id = edit_id) = some orig)
    (hrename : area_new ≠ orig.cost_area) :
    (0 < utilizationOf budgets requests orig.cost_area →
      (∃ e, admin_edit_budget budgets requests edit_id dept_new area_new
          amount_new = .error e) ∧
      (dept_new ≠ "" → area_new ≠ "" → 0 < amount_new →
        budgets.any (fun b => b.cost_area = area_new ∧ b.id ≠ edit_id) =
          false →
        admin_edit_budget budgets requests edit_id dept_new area_new
            amount_new =
          .error (.nonZeroUtilizationRename orig.cost_area
            (utilizationOf budgets requests orig.cost_area)))) ∧
    (utilizationOf budgets requests orig.cost_area = 0 →
      dept_new ≠ "" → area_new ≠ "" → 0 < amount_new →
      budgets.any (fun b => b.cost_area = area_new ∧ b.id ≠ edit_id) =
        false →
      admin_edit_budget budgets requests edit_id dept_new area_new
          amount_new =
        .ok (budgets.map (fun b =>
          if b.id = edit_id then
            { b with department := dept_new, cost_area := area_new,
                     total_budget := amount_new }
          else b), requests)) := by
  constructor
  · intro hu
    constructor
    · by_cases h1 : dept_new = "" ∨ area_new = "" ∨ amount_new ≤ 0
      · exact ⟨.missingOrInvalid,
          by simp only [admin_edit_budget, hfind, if_pos h1]⟩
      · by_cases h2 : budgets.any
            (fun b => b.cost_area = area_new ∧ b.id ≠ edit_id) = true
        · exact ⟨.duplicateArea area_new, by
            simp only [admin_edit_budget, hfind, if_neg h1, if_neg hrename,
                       if_pos h2]⟩
        · exact ⟨.nonZeroUtilizationRename orig.cost_area
              (utilizationOf budgets requests orig.cost_area), by
            simp only [admin_edit_budget, hfind, if_neg h1, if_neg hrename,
                       if_neg h2, if_pos hu]⟩
    · intro hd ha hamt hdup
      have h1 : ¬ (dept_new = "" ∨ area_new = "" ∨ amount_new ≤ 0) := by
        intro h
        rcases h with h | h | h
        · exact hd h
        · exact ha h
        · exact absurd hamt (not_lt.mpr h)
      have h2 : ¬ budgets.any
          (fun b => b.cost_area = area_new ∧ b.id ≠ edit_id) = true := by
        rw [hdup]
        exact Bool.false_ne_true
      simp only [admin_edit_budget, hfind, if_neg h1, if_neg hrename,
                 if_neg h2, if_pos hu]
  · intro hu hd ha hamt hdup
    have h1 : ¬ (dept_new = "" ∨ area_new = "" ∨ amount_new ≤ 0) := by
      intro h
      rcases h with h | h | h
      · exact hd h
      · exact ha h
      · exact absurd hamt (not_lt.mpr h)
    have h2 : ¬ budgets.any
        (fun b => b.cost_area = area_new ∧ b.id ≠ edit_id) = true := by
      rw [hdup]
      exact Bool.false_ne_true
    have h3 : ¬ 0 < utilizationOf budgets requests orig.cost_area := by
      rw [hu]
      exact lt_irrefl 0
    simp only [admin_edit_budget, hfind, if_neg h1, if_neg hrename,
               if_neg h2, if_neg h3]

/-- Witness for C6 (amended): with no requests recorded, renaming
`AREA-A` (utilization 0) to the fresh name `AREA-C` succeeds and leaves
the (empty) request table unmodified. -/
theorem budget_rename_guard_witness :
    utilizationOf budgetsAB [] "AREA-A" = 0 ∧
    admin_edit_budget budgetsAB [] 1 "Mechanical" "AREA-C" 100 =
      .ok ([{ id := 1, department := "Mechanical", cost_area := "AREA-C",
              total_budget := 100 },
            { id := 2, department := "Mechanical", cost_area := "AREA-B",
              total_budget := 100 }], []) := by
  have hu : utilizationOf budgetsAB [] "AREA-A" = 0 := by
    norm_num [utilizationOf, ledgerFind, calculate_status, spentByArea,
              lookupSpent, ledgerRowFor, budgetsAB, List.find?]
  refine ⟨hu, ?_⟩
  have h := (budget_rename_guard budgetsAB [] 1 "Mechanical" "AREA-C" 100
      { id := 1, department := "Mechanical", cost_area := "AREA-A",
        total_budget := 100 }
      rfl (by decide)).2 hu (by decide) (by decide) (by norm_num)
      (by decide)
  rw [h]
  rfl

/-- C9 (code bug): a successful rename of `AREA-A` to `AREA-B` leaves
the request that references `AREA-A` untouched -- the cascading
`UPDATE requests` written at `app_v11.py` lines 2084-2085 is nested
inside the name-unchanged branch under the contradictory guard
`area_new != original_area` and never executes, and where it is written
it would run through `execute_query`, which opens, commits and closes
its own connection per statement, so no single rename-with-cascade
transaction exists anywhere in the handler. -/
theorem budget_rename_no_cascade :
    reqZero.cost_area = "AREA-A" ∧ reqZero.landed_total_cost = 0 ∧
    admin_edit_budget
        [{ id := 1, department := "Mechanical", cost_area := "AREA-A",
           total_budget := 100 }] [reqZero] 1 "Mechanical" "AREA-B" 100 =
      .ok ([{ id := 1, department := "Mechanical", cost_area := "AREA-B",
              total_budget := 100 }], [reqZero]) ∧
    [reqZero].map (fun r => r.cost_area) = ["AREA-A"] := by
  have hu : utilizationOf
      [{ id := 1, department := "Mechanical", cost_area := "AREA-A",
         total_budget := 100 }] [reqZero] "AREA-A" = 0 := by
    norm_num [utilizationOf, ledgerFind, calculate_status, spentByArea,
              bumpSpent, lookupSpent, ledgerRowFor, reqZero, req0,
              List.find?]
  have h : admin_edit_budget
      [{ id := 1, department := "Mechanical", cost_area := "AREA-A",
         total_budget := 100 }] [reqZero] 1 "Mechanical" "AREA-B" 100 =
      .ok ([{ id := 1, department := "Mechanical", cost_area := "AREA-B",
              total_budget := 100 }], [reqZero]) := by decide
  exact ⟨by decide, by decide, h, by decide⟩

theorem filter_id_ne_of_forall (t : List GoodsItem) (id : Nat)
    (h : ∀ j ∈ t, j.id ≠ id) : t.filter (fun i => i.id ≠ id) = t :=
  List.filter_eq_self.mpr (fun a ha => by simp [h a ha])

theorem sum_amount_filter_ne (items : List GoodsItem) (id : Nat)
    (item : GoodsItem) (hnd : (items.map (fun i => i.id)).Nodup)
    (hfind : items.find? (fun i => i.id = id) = some item) :
    ((items.filter (fun i => i.id ≠ id)).map (fun i => i.amount)).sum =
      (items.map (fun i => i.amount)).sum - item.amount := by
  induction items with
  | nil => simp at hfind
  | cons a t ih =>
    rw [List.map_cons, List.nodup_cons] at hnd
    by_cases ha : a.id = id
    · rw [List.find?_cons_of_pos _ (by simpa using ha)] at hfind
      injection hfind with hitem
      subst hitem
      have hall : ∀ j ∈ t, j.id ≠ id := by
        intro j hj heq
        exact hnd.1 (by
          rw [ha, ← heq]
          exact List.mem_map_of_mem (fun i => i.id) hj)
      rw [List.filter_cons, if_neg (by simp [ha]),
          filter_id_ne_of_forall t id hall, List.map_cons, List.sum_cons]
      ring
    · rw [List.find?_cons_of_neg _ (by simpa using ha)] at hfind
      rw [List.filter_cons, if_pos (by simpa using ha), List.map_cons,
          List.sum_cons, List.map_cons, List.sum_cons, ih hnd.2 hfind]
      ring

theorem applyBillOp_preserves (st : BillState) (op : BillOp)
    (hwf : billWF st) (hinv : billInvariant st) :
    billWF (applyBillOp st op) ∧ billInvariant (applyBillOp st op) := by
  cases op with
  | add description quantity unit rate =>
    by_cases hv : description = "" ∨ unit = "" ∨ quantity ≤ 0 ∨ rate < 0
    · simp only [applyBillOp, if_pos hv]
      exact ⟨hwf, hinv⟩
    · simp only [applyBillOp, if_neg hv]
      refine ⟨⟨?_, ?_⟩, ?_⟩
      · rw [List.map_append, List.nodup_append]
        refine ⟨hwf.1, List.nodup_singleton _, ?_⟩
        intro x hx hx2
        simp only [List.map_cons, List.map_nil, List.mem_singleton] at hx2
        subst hx2
        obtain ⟨i, hi, hid⟩ := List.mem_map.mp hx
        exact absurd (hid ▸ hwf.2 i hi) (lt_irrefl _)
      · intro i hi
        rcases List.mem_append.mp hi with h | h
        · exact Nat.lt_succ_of_lt (hwf.2 i h)
        · simp only [List.mem_singleton] at h
          subst h
          exact Nat.lt_succ_self _
      · unfold billInvariant at hinv ⊢
        simp [List.map_append, hinv]
  | del id =>
    cases hfind : st.items.find? (fun i => i.id = id) with
    | none =>
      simp only [applyBillOp, hfind]
      exact ⟨hwf, hinv⟩
    | some item =>
      simp only [applyBillOp, hfind]
      refine ⟨⟨?_, ?_⟩, ?_⟩
      · exact List.Nodup.sublist
          (List.Sublist.map _ (List.filter_sublist st.items)) hwf.1
      · intro i hi
        exact hwf.2 i (List.mem_of_mem_filter hi)
      · unfold billInvariant at hinv ⊢
        rw [sum_amount_filter_ne st.items id item hwf.1 hfind, hinv]

/-- C5: a bill created through the staged-goods form starts with its
header total equal to the sum of its line items' amounts, and after any
sequence of committed line-item additions and deletions the header
total still equals the sum of the amounts of the items currently
referencing the bill -- including 0 once the last item is deleted. -/
theorem indent_total_invariant (raw : List RawGoods) (ops : List BillOp)
    (st0 : BillState) (h : createBill raw = some st0) :
    billInvariant st0 ∧ billInvariant (ops.foldl applyBillOp st0) := by
  have hprops : billWF st0 ∧ billInvariant st0 := by
    simp only [createBill] at h
    by_cases hc : (raw.foldl stageGoods []) = [] ∨
        ((raw.foldl stageGoods []).map (fun g => g.quantity * g.rate)).sum ≤ 0
    · rw [if_pos hc] at h
      exact absurd h (by simp)
    · rw [if_neg hc] at h
      injection h with h
      subst h
      set staged := raw.foldl stageGoods [] with hstaged
      have hlen : (List.range staged.length).length = staged.length :=
        List.length_range staged.length
      have hids : (((List.range staged.length).zip staged).map
          (fun p => ({ id := p.1, description := p.2.description,
                       quantity := p.2.quantity, unit := p.2.unit,
                       rate := p.2.rate,
                       amount := p.2.quantity * p.2.rate } : GoodsItem))).map
            (fun i => i.id) = List.range staged.length := by
        rw [List.map_map]
        exact List.map_fst_zip _ staged (by simp)
      refine ⟨⟨?_, ?_⟩, ?_⟩
      · rw [hids]
        exact List.nodup_range _
      · intro i hi
        have : i.id ∈ List.range staged.length := by
          rw [← hids]
          exact List.mem_map_of_mem (fun i => i.id) hi
        simpa using List.mem_range.mp this
      · unfold billInvariant
        show (staged.map (fun g => g.quantity * g.rate)).sum = _
        have hsnd : (((List.range staged.length).zip staged).map
            (fun p => ({ id := p.1, description := p.2.description,
                         quantity := p.2.quantity, unit := p.2.unit,
                         rate := p.2.rate,
                         amount := p.2.quantity * p.2.rate } : GoodsItem))).map
              (fun i => i.amount) =
            staged.map (fun g => g.quantity * g.rate) := by
          rw [List.map_map]
          have hz : ((List.range staged.length).zip staged).map
              (fun p => p.2.quantity * p.2.rate) =
              (((List.range staged.length).zip staged).map Prod.snd).map
                (fun g => g.quantity * g.rate) := by
            rw [List.map_map]
            rfl
          rw [show ((fun i : GoodsItem => i.amount) ∘
              (fun p : Nat × RawGoods =>
                ({ id := p.1, description := p.2.description,
                   quantity := p.2.quantity, unit := p.2.unit,
                   rate := p.2.rate,
                   amount := p.2.quantity * p.2.rate } : GoodsItem))) =
            (fun p : Nat × RawGoods => p.2.quantity * p.2.rate) from rfl]
          rw [hz, List.map_snd_zip _ _ (le_of_eq hlen.symm)]
        rw [hsnd]
  have hfold : ∀ (l : List BillOp) (st : BillState), billWF st →
      billInvariant st →
      billWF (l.foldl applyBillOp st) ∧
        billInvariant (l.foldl applyBillOp st) := by
    intro l
    induction l with
    | nil =>
      intro st hwf hinv
      exact ⟨hwf, hinv⟩
    | cons op l ih =>
      intro st hwf hinv
      have hstep := applyBillOp_preserves st op hwf hinv
      exact ih _ hstep.1 hstep.2
  exact ⟨hprops.2, (hfold ops st0 hprops.1 hprops.2).2⟩

/-- Witness for C5: a bill created with one line (2 pc at rate 5, amount
10) starts with total 10, and deleting that last item brings the stored
total to 0, matching the empty item list. -/
theorem indent_total_invariant_witness :
    createBill [{ description := "Bolt", quantity := 2, unit := "pc",
                  rate := 5 }] =
      some { total_bill_amount := 10,
             items := [{ id := 0, description := "Bolt", quantity := 2,
                         unit := "pc", rate := 5, amount := 10 }],
             nextId := 1 } ∧
    billInvariant ([BillOp.del 0].foldl applyBillOp
      { total_bill_amount := 10,
        items := [{ id := 0, description := "Bolt", quantity := 2,
                    unit := "pc", rate := 5, amount := 10 }],
        nextId := 1 }) ∧
    ([BillOp.del 0].foldl applyBillOp
      { total_bill_amount := 10,
        items := [{ id := 0, description := "Bolt", quantity := 2,
                    unit := "pc", rate := 5, amount := 10 }],
        nextId := 1 }).total_bill_amount = 0 := by
  have hc : createBill [{ description := "Bolt", quantity := 2,
                          unit := "pc", rate := 5 }] =
      some { total_bill_amount := 10,
             items := [{ id := 0, description := "Bolt", quantity := 2,
                         unit := "pc", rate := 5, amount := 10 }],
             nextId := 1 } := by
    have hne : ¬ (("Bolt" : String) = "" ∨ ("pc" : String) = "") := by decide
    norm_num [createBill, stageGoods, hne, List.range, List.range.loop]
  refine ⟨hc,
    (indent_total_invariant _ [BillOp.del 0] _ hc).2, ?_⟩
  norm_num [applyBillOp, List.find?, List.filter]

/-- C10: the admin status update rewrites only the selected request's
status column -- the budget heads are untouched, every other request row
is unchanged, the selected row keeps all its other columns, and the
budget ledger (hence each area's utilized cost) is identical before and
after; in particular a request set to "Rejected" still contributes its
full landed cost. -/
theorem status_update_frame (db : Db) (selected_id : Nat)
    (new_status : String) :
    (status_update db selected_id new_status).budget_heads =
      db.budget_heads ∧
    (status_update db selected_id new_status).requests.length =
      db.requests.length ∧
    (∀ r ∈ db.requests, r.id ≠ selected_id →
      r ∈ (status_update db selected_id new_status).requests) ∧
    (∀ r ∈ db.requests, r.id = selected_id →
      ({ r with status := new_status } : Request) ∈
        (status_update db selected_id new_status).requests) ∧
    calculate_status (status_update db selected_id new_status).budget_heads
        (status_update db selected_id new_status).requests =
      calculate_status db.budget_heads db.requests := by
  have hspent : spentByArea (db.requests.map (fun r =>
      if r.id = selected_id then { r with status := new_status } else r)) =
      spentByArea db.requests := by
    apply spentByArea_map_preserving
    · intro r
      by_cases h : r.id = selected_id <;> simp [h]
    · intro r
      by_cases h : r.id = selected_id <;> simp [h]
  refine ⟨rfl, by simp [status_update], ?_, ?_, ?_⟩
  · intro r hr hne
    have hmem := List.mem_map_of_mem (fun r : Request =>
      if r.id = selected_id then { r with status := new_status } else r) hr
    simpa [status_update, if_neg hne] using hmem
  · intro r hr heq
    have hmem := List.mem_map_of_mem (fun r : Request =>
      if r.id = selected_id then { r with status := new_status } else r) hr
    simpa [status_update, if_pos heq] using hmem
  · show calculate_status db.budget_heads _ = _
    unfold calculate_status
    rw [show (status_update db selected_id new_status).requests =
        db.requests.map (fun r =>
          if r.id = selected_id then { r with status := new_status } else r)
      from rfl, hspent]

/-- Witness for C10: rejecting `req0` keeps it (with only its status
changed) in the table and leaves the whole ledger unchanged. -/
theorem status_update_frame_witness :
    ({ req0 with status := "Rejected" } : Request) ∈
      (status_update { budget_heads := budgetsA, requests := [req0] } 1
        "Rejected").requests ∧
    calculate_status
        (status_update { budget_heads := budgetsA, requests := [req0] } 1
          "Rejected").budget_heads
        (status_update { budget_heads := budgetsA, requests := [req0] } 1
          "Rejected").requests =
      calculate_status budgetsA [req0] := by
  have h := status_update_frame
    { budget_heads := budgetsA, requests := [req0] } 1 "Rejected"
  exact ⟨h.2.2.2.1 req0 (by simp) rfl, h.2.2.2.2⟩

end ProcApp
